import Mathlib

/-!
Shallow embedding of the Juna voice/chat front-end's query orchestration and
progress-correlation layer, translated from the JavaScript source:

* `BrainCommunication` (validators, `processQuery`, `resetSession`, the
  `on`/`off`/`emit` event registry) — file `src/unnamed/part_003`;
* `JunaVoiceInterface` orchestration (`processBrainQuery`,
  `handleProgressUpdate`, `resetBrainSession`, `renderBrainResponse`) —
  file `src/unnamed/part_002`;
* `MessageRenderer` progress rendering (`renderProgressUpdate`,
  `updateProgressMessage`, `completeProgressMessage`) — file
  `src/unnamed/part_001`.

JavaScript dynamic values are modelled by the inductive `RawValue`
(null, undefined, booleans, numbers as `Int`, strings, objects as
association lists).  Property access, truthiness, `typeof`, optional
chaining and nullish coalescing (`??`) are modelled explicitly.  Functions
that can throw return `Except JSError`.  Asynchronous remote invocations
are modelled by passing the settlement of the invoke (`Except JSError
RawValue`) as an explicit argument, and by recording which remote
operations were issued in the state.
-/

namespace Juna

/-- A thrown JavaScript error, reduced to its message. -/
structure JSError where
  message : String
deriving DecidableEq, Repr

mutual
/-- A JavaScript runtime value as it crosses the wire boundary. -/
inductive RawValue where
  | vnull
  | vundefined
  | vBool (b : Bool)
  | vNum (n : Int)
  | vStr (s : String)
  | vObj (fields : RawFields)

/-- The ordered own-property list of a JavaScript object. -/
inductive RawFields where
  | nil
  | cons (key : String) (value : RawValue) (rest : RawFields)
end

deriving instance DecidableEq for RawValue
deriving instance DecidableEq for RawFields
deriving instance Repr for RawValue
deriving instance Repr for RawFields

namespace RawValue

/-- Nullish test `v == null || v == undefined` — the values on which `??` picks its
right operand and on which property access throws. -/
def isNullish : RawValue → Bool
  | vnull => true
  | vundefined => true
  | _ => false

/-- JavaScript nullish coalescing `a ?? b`. -/
def nullish (a b : RawValue) : RawValue :=
  if a.isNullish then b else a

/-- JavaScript truthiness. -/
def truthy : RawValue → Bool
  | vnull => false
  | vundefined => false
  | vBool b => b
  | vNum n => n != 0
  | vStr s => s != ""
  | vObj _ => true

/-- Test `typeof v === "object"` (true for `null` and objects). -/
def typeofObject : RawValue → Bool
  | vnull => true
  | vObj _ => true
  | _ => false

/-- Build an object field list from a Lean list literal. -/
def fieldsOf : List (String × RawValue) → RawFields
  | [] => .nil
  | (k, v) :: rest => .cons k v (fieldsOf rest)

/-- Build an object value from a Lean list literal. -/
def obj (l : List (String × RawValue)) : RawValue :=
  vObj (fieldsOf l)

/-- First-match lookup in an object's field list; a missing property
reads as `undefined`. -/
def lookupField : RawFields → String → RawValue
  | .nil, _ => vundefined
  | .cons k v rest, key => if k == key then v else lookupField rest key

/-- Property access `a.k` on a receiver already known not to be
null/undefined: objects look the field up, primitives box to wrapper
objects without own properties and read as `undefined`. -/
def jsGet : RawValue → String → RawValue
  | vObj fs, key => lookupField fs key
  | _, _ => vundefined

/-- Optional chaining `a?.k`: `undefined` when `a` is nullish. -/
def jsGetOpt (a : RawValue) (key : String) : RawValue :=
  if a.isNullish then vundefined else a.jsGet key

/-- Whether an object field list declares a key. -/
def hasField : RawFields → String → Bool
  | .nil, _ => false
  | .cons k _ rest, key => k == key || hasField rest key

end RawValue

open RawValue

/-! ## Validators (`BrainCommunication`, `src/unnamed/part_003`)

Each validator takes the arbitrary incoming payload.  The ones whose
fallback is `Date.now()` additionally take the current time `now`.
-/

/-- Check `validTypes.includes(response.response_type)` in
`validateQueryResponse`. -/
def validResponseType (v : RawValue) : Bool :=
  v == vStr "SIMPLE" || v == vStr "COMPLEX" || v == vStr "DIRECT" || v == vStr "ERROR"

/-- Embeds `BrainCommunication.validateQueryResponse`: throws
`"Invalid response structure"` on falsy or non-object input, otherwise
fills documented defaults field by field. -/
def validateQueryResponse (response : RawValue) : Except JSError RawValue :=
  if !response.truthy || !response.typeofObject then
    .error ⟨"Invalid response structure"⟩
  else
    let md := response.jsGet "metadata"
    .ok (obj [
      ("success", nullish (response.jsGet "success") (vBool false)),
      ("response_type",
        if validResponseType (response.jsGet "response_type") then
          response.jsGet "response_type"
        else vStr "ERROR"),
      ("message", nullish (response.jsGet "message") (vStr "No message provided")),
      ("metadata", obj [
        ("route_taken", nullish (md.jsGetOpt "route_taken") (vStr "unknown")),
        ("execution_time_ms", nullish (md.jsGetOpt "execution_time_ms") (vNum 0)),
        ("steps_completed", nullish (md.jsGetOpt "steps_completed") (vNum 0)),
        ("session_id", nullish (md.jsGetOpt "session_id") (vStr "unknown"))])])

/-- Check `validTypes.includes(update.type)` in `validateProgressUpdate`. -/
def validProgressType (v : RawValue) : Bool :=
  v == vStr "CONTEXT_COLLECTION" || v == vStr "TASK_EXECUTION" || v == vStr "STEP_COMPLETE"

/-- Embeds `BrainCommunication.validateProgressUpdate`: reading `update.type`
throws a TypeError when `update` is null/undefined; otherwise every field
is filled by `??` with its literal default (`current_step ?? 1`,
`total_steps ?? null`, `timestamp ?? Date.now()`). -/
def validateProgressUpdate (now : Int) (update : RawValue) : Except JSError RawValue :=
  if update.isNullish then
    .error ⟨"Cannot read properties of null or undefined"⟩
  else
    .ok (obj [
      ("type",
        if validProgressType (update.jsGet "type") then update.jsGet "type"
        else vStr "TASK_EXECUTION"),
      ("message", nullish (update.jsGet "message") (vStr "Processing...")),
      ("current_step", nullish (update.jsGet "current_step") (vNum 1)),
      ("total_steps", nullish (update.jsGet "total_steps") vnull),
      ("timestamp", nullish (update.jsGet "timestamp") (vNum now))])

/-- Embeds `BrainCommunication.validateSessionStatus`: reading
`status.session_id` throws on null/undefined input, otherwise fills
defaults (`created_at ?? Date.now()`). -/
def validateSessionStatus (now : Int) (status : RawValue) : Except JSError RawValue :=
  if status.isNullish then
    .error ⟨"Cannot read properties of null or undefined"⟩
  else
    .ok (obj [
      ("session_id", nullish (status.jsGet "session_id") (vStr "unknown")),
      ("created_at", nullish (status.jsGet "created_at") (vNum now)),
      ("message_count", nullish (status.jsGet "message_count") (vNum 0)),
      ("current_task", nullish (status.jsGet "current_task") vnull),
      ("memory_size", nullish (status.jsGet "memory_size") (vNum 0)),
      ("is_active", nullish (status.jsGet "is_active") (vBool false))])

/-- Embeds `BrainCommunication.validateErrorResponse`: reading
`error.error_code` throws on null/undefined input, otherwise fills
defaults (`timestamp ?? Date.now()`). -/
def validateErrorResponse (now : Int) (error : RawValue) : Except JSError RawValue :=
  if error.isNullish then
    .error ⟨"Cannot read properties of null or undefined"⟩
  else
    .ok (obj [
      ("error_code", nullish (error.jsGet "error_code") (vStr "UNKNOWN_ERROR")),
      ("message", nullish (error.jsGet "message") (vStr "An unknown error occurred")),
      ("details", nullish (error.jsGet "details") vnull),
      ("recoverable", nullish (error.jsGet "recoverable") (vBool false)),
      ("timestamp", nullish (error.jsGet "timestamp") (vNum now))])

/-! ## `BrainCommunication.processQuery` and `resetSession` -/

/-- Test `typeof v === "string"`. -/
def RawValue.isStr : RawValue → Bool
  | .vStr _ => true
  | _ => false

/-- The string payload of a string value. -/
def RawValue.strVal : RawValue → String
  | .vStr s => s
  | _ => ""

/-- JavaScript `String.prototype.trim`: strip whitespace from both ends
(structural recursion over the character list, so that it evaluates). -/
def jsTrim (s : String) : String :=
  String.mk (((s.data.dropWhile Char.isWhitespace).reverse.dropWhile
    Char.isWhitespace).reverse)

/-- The structured error response synthesized by `processQuery`'s catch
branch when the invoke (or the validation of its result) throws. -/
def transportErrorResponse (errMessage : String) : RawValue :=
  obj [
    ("success", vBool false),
    ("response_type", vStr "ERROR"),
    ("message", vStr ("Communication failed: " ++ errMessage)),
    ("metadata", obj [
      ("route_taken", vStr "error_handler"),
      ("execution_time_ms", vNum 0),
      ("steps_completed", vNum 0),
      ("session_id", vStr "unknown")])]

/-- Embeds `BrainCommunication.processQuery`.  The settlement of
`invoke("process_query", { query: query.trim(), ... })` is the explicit
argument `invokeResult`.  The first component is the trimmed query string
actually sent to the backend (`none` when validation rejects the call
before any remote invoke); the second is the settled result: the guard
clauses throw, while inside the `try` every failure — a rejected invoke
or a throwing `validateQueryResponse` — is caught and converted to the
synthesized error response, so that branch always resolves. -/
def processQuery (query : RawValue) (invokeResult : Except JSError RawValue) :
    Option String × Except JSError RawValue :=
  if !query.truthy || !query.isStr then
    (none, .error ⟨"Query must be a non-empty string"⟩)
  else if query.strVal.length > 10000 then
    (none, .error ⟨"Query exceeds maximum length of 10000 characters"⟩)
  else
    let sent := jsTrim query.strVal
    match invokeResult with
    | .ok resp =>
      match validateQueryResponse resp with
      | .ok valid => (some sent, .ok valid)
      | .error e => (some sent, .ok (transportErrorResponse e.message))
    | .error e => (some sent, .ok (transportErrorResponse e.message))

/-- Embeds `BrainCommunication.resetSession`: awaits `invoke("reset_session")`
(settlement `invokeResult`); on success it emits `session_reset` (the
emission's effect is modelled at the caller), on failure it rethrows
`Session reset failed: <message>`. -/
def resetSession (invokeResult : Except JSError Unit) : Except JSError Unit :=
  match invokeResult with
  | .ok _ => .ok ()
  | .error e => .error ⟨"Session reset failed: " ++ e.message⟩

/-! ## The `on`/`off`/`emit` event registry of `BrainCommunication`

`eventHandlers` is a `Map` from event type to a `Set` of handler
functions.  Handlers are identified by opaque ids (`Nat`); a JS `Set`
keeps insertion order and holds no duplicates.  What a handler does when
invoked is an explicit parameter `run` of `emit`; a handler that throws is
modelled by `run` returning `.error`. -/

/-- The `eventHandlers` map. -/
structure Registry where
  map : List (String × List Nat)
deriving DecidableEq, Repr

/-- Lookup `eventHandlers.get(eventType)` (with `has` as `isSome`). -/
def handlersOf (r : Registry) (eventType : String) : Option (List Nat) :=
  (r.map.find? (fun p => p.1 == eventType)).map (fun p => p.2)

/-- Update `eventHandlers.set(eventType, hs)` when the key already exists. -/
def setHandlers : List (String × List Nat) → String → List Nat → List (String × List Nat)
  | [], _, _ => []
  | (k, v) :: rest, eventType, hs =>
    if k == eventType then (k, hs) :: rest else (k, v) :: setHandlers rest eventType hs

/-- Embeds `BrainCommunication.on`: create the event's `Set` if absent, then add
the handler (adding an already-present member leaves a `Set` unchanged). -/
def onEvent (r : Registry) (eventType : String) (h : Nat) : Registry :=
  match handlersOf r eventType with
  | none => ⟨r.map ++ [(eventType, [h])]⟩
  | some hs => ⟨setHandlers r.map eventType (if h ∈ hs then hs else hs ++ [h])⟩

/-- Embeds `BrainCommunication.off`: delete the handler from the event's `Set`
if one exists. -/
def off (r : Registry) (eventType : String) (h : Nat) : Registry :=
  match handlersOf r eventType with
  | none => r
  | some hs => ⟨setHandlers r.map eventType (hs.erase h)⟩

/-- The `forEach` loop body of `emit`: invoke each handler in order with
the payload inside its own try/catch, returning the invocation trace and
the caught (logged, not rethrown) errors. -/
def runHandlers (hs : List Nat) (run : Nat → RawValue → Except JSError Unit)
    (payload : RawValue) : List (Nat × RawValue) × List JSError :=
  match hs with
  | [] => ([], [])
  | h :: rest =>
    let tail := runHandlers rest run payload
    ((h, payload) :: tail.1,
      match run h payload with
      | .error e => e :: tail.2
      | .ok _ => tail.2)

/-- Embeds `BrainCommunication.emit`: when handlers are registered for the event
type, invoke every one of them with the payload; a handler's exception is
caught per handler, so it stops neither the remaining handlers nor `emit`
itself, which always returns normally (its result type has no error
channel, mirroring that no path of the source rethrows). -/
def emit (r : Registry) (eventType : String) (run : Nat → RawValue → Except JSError Unit)
    (payload : RawValue) : List (Nat × RawValue) × List JSError :=
  match handlersOf r eventType with
  | none => ([], [])
  | some hs => runHandlers hs run payload

/-! ## `MessageRenderer` progress rendering (`src/unnamed/part_001`) -/

/-- JavaScript `Math.round`: round half toward positive infinity. -/
def jsRound (q : ℚ) : Int := Int.floor (q + 1 / 2)

/-- A validated progress update as the renderer consumes it — the shape
produced by `validateProgressUpdate`, where `total_steps` is a number or
`null` (`none`). -/
structure PUpdate where
  ptype : String
  pmessage : String
  current_step : Int
  total_steps : Option Int
deriving DecidableEq, Repr

/-- The view-model content a progress message displays, as written by
`MessageRenderer.updateProgressMessage`. -/
structure ProgressContent where
  ptype : String
  pmessage : String
  stepText : String
  percentage : Int
deriving DecidableEq, Repr

/-- Embeds `MessageRenderer.updateProgressMessage` as the pure content it
writes: `update.total_steps` is truthy exactly when it is a nonzero
number, in which case the bar width is
`Math.round(current_step / total_steps * 100)` and the step text is
`current_step + "/" + total_steps`; otherwise the width is `0` and the
text is `"Step " + current_step`. -/
def updateContent (u : PUpdate) : ProgressContent :=
  match u.total_steps with
  | some n =>
    if n ≠ 0 then
      ⟨u.ptype, u.pmessage, toString u.current_step ++ "/" ++ toString n,
        jsRound ((u.current_step : ℚ) * 100 / (n : ℚ))⟩
    else
      ⟨u.ptype, u.pmessage, "Step " ++ toString u.current_step, 0⟩
  | none => ⟨u.ptype, u.pmessage, "Step " ++ toString u.current_step, 0⟩

/-- A message in the chat container, as the renderer's view model. -/
inductive RenderedMsg where
  | user (text : String)
  | progress (taskId : String) (content : ProgressContent) (completed : Bool)
  | response (kind : String) (resp : RawValue)
deriving DecidableEq, Repr

/-- Whether a message is the progress message carrying `data-task-id = t`. -/
def RenderedMsg.isProgressFor : RenderedMsg → String → Bool
  | .progress tid _ _, t => tid == t
  | _, _ => false

/-- Replace the content of the first progress message with the given task
id (`updateProgressMessage` rewrites the found element's innerHTML, which
leaves its position and its `completed` class intact). -/
def updateFirstProgress : List RenderedMsg → String → ProgressContent → List RenderedMsg
  | [], _, _ => []
  | m :: rest, t, c =>
    if m.isProgressFor t then
      match m with
      | .progress tid _ done => .progress tid c done :: rest
      | _ => m :: rest
    else m :: updateFirstProgress rest t c

/-- Embeds `MessageRenderer.renderProgressUpdate` together with
`createProgressMessage`: `findProgressMessage` returns null when the task
id itself is falsy, so a falsy task id always creates a fresh message
(tagged `"default"`); otherwise the first existing progress message for
the id is updated in place, else a fresh one is appended. -/
def renderProgressUpdate (msgs : List RenderedMsg) (u : PUpdate)
    (taskId : Option String) : List RenderedMsg :=
  match taskId with
  | some t =>
    if t != "" && msgs.any (fun m => m.isProgressFor t) then
      updateFirstProgress msgs t (updateContent u)
    else
      msgs ++ [RenderedMsg.progress (if t == "" then "default" else t) (updateContent u) false]
  | none => msgs ++ [RenderedMsg.progress "default" (updateContent u) false]

/-- Embeds `MessageRenderer.completeProgressMessage`: mark the first progress
message for the task id as completed (the appended completion badge). -/
def completeProgress : List RenderedMsg → String → List RenderedMsg
  | [], _ => []
  | m :: rest, t =>
    if m.isProgressFor t then
      match m with
      | .progress tid c _ => .progress tid c true :: rest
      | _ => m :: rest
    else m :: completeProgress rest t

/-! ## `JunaVoiceInterface` orchestration (`src/unnamed/part_002`) -/

/-- The observable state of the `JunaVoiceInterface` orchestration: the
single-flight flag and current task id, the rendered chat messages, the
notifications shown (message, css class), and the remote operations
invoked, in order. -/
structure JunaState where
  isProcessingQuery : Bool
  currentTaskId : Option String
  messages : List RenderedMsg
  notifications : List (String × String)
  invokes : List String
deriving DecidableEq, Repr

/-- Embeds `JunaVoiceInterface.renderBrainResponse`: dispatch on
`response.response_type`; `COMPLEX` additionally completes the active
progress message when `currentTaskId` is truthy; unknown types fall back
to the simple rendering. -/
def renderBrainResponse (st : JunaState) (resp : RawValue) : JunaState :=
  let rt := resp.jsGet "response_type"
  if rt == vStr "SIMPLE" then
    { st with messages := st.messages ++ [RenderedMsg.response "simple" resp] }
  else if rt == vStr "COMPLEX" then
    let st1 := { st with messages := st.messages ++ [RenderedMsg.response "complex" resp] }
    match st.currentTaskId with
    | some t =>
      if t != "" then { st1 with messages := completeProgress st1.messages t } else st1
    | none => st1
  else if rt == vStr "DIRECT" then
    { st with messages := st.messages ++ [RenderedMsg.response "direct" resp] }
  else if rt == vStr "ERROR" then
    { st with messages := st.messages ++ [RenderedMsg.response "error" resp] }
  else
    { st with messages := st.messages ++ [RenderedMsg.response "simple" resp] }

/-- The error object rendered by `processBrainQuery`'s catch branch. -/
def queryFailedResponse (errMessage : String) : RawValue :=
  obj [
    ("success", vBool false),
    ("response_type", vStr "ERROR"),
    ("message", vStr errMessage),
    ("metadata", obj [("error_code", vStr "COMMUNICATION_FAILED")])]

/-- Embeds `JunaVoiceInterface.processBrainQuery`.  When a query is already in
flight (`isProcessingQuery`) the call returns at once — resolving
normally — after showing a warning notification, touching neither the
flag, the task id, the messages nor the invoke log.  Otherwise it sets
the single-flight flag, assigns `task_<now>`, runs
`BrainCommunication.processQuery` (invoke settlement `invokeResult`),
renders the outcome (the catch branch renders the thrown validation
error), refreshes the session status on the success path, and in the
`finally` clears the flag (the task id is left in place).  No path
throws: the returned `Except` is always `.ok`. -/
def processBrainQuery (st : JunaState) (now : Nat) (query : String)
    (invokeResult : Except JSError RawValue) : JunaState × Except JSError Unit :=
  if st.isProcessingQuery then
    ({ st with notifications :=
        st.notifications ++ [("Please wait for current query to complete", "warning")] },
      .ok ())
  else
    let tid := "task_" ++ toString now
    let st1 := { st with isProcessingQuery := true, currentTaskId := some tid }
    let res := processQuery (vStr query) invokeResult
    let st2 :=
      match res.1 with
      | some sent => { st1 with invokes := st1.invokes ++ ["process_query:" ++ sent] }
      | none => st1
    let st3 :=
      match res.2 with
      | .ok resp =>
        let stR := renderBrainResponse st2 resp
        { stR with invokes := stR.invokes ++ ["get_session_status"] }
      | .error e =>
        let stN := { st2 with notifications :=
          st2.notifications ++ [("Query failed: " ++ e.message, "error")] }
        { stN with messages :=
          stN.messages ++ [RenderedMsg.response "error" (queryFailedResponse e.message)] }
    ({ st3 with isProcessingQuery := false }, .ok ())

/-- Embeds `JunaVoiceInterface.handleProgressUpdate`: render or update the
progress message for the current task id, and additionally show a success
notification for `STEP_COMPLETE` updates.  The function consults neither
`isProcessingQuery` nor any task status. -/
def handleProgressUpdate (st : JunaState) (u : PUpdate) : JunaState :=
  { st with
    messages := renderProgressUpdate st.messages u st.currentTaskId,
    notifications :=
      if u.ptype == "STEP_COMPLETE" then st.notifications ++ [(u.pmessage, "success")]
      else st.notifications }

/-- Embeds `JunaVoiceInterface.resetBrainSession`: shows the warning
notification, then unconditionally awaits
`BrainCommunication.resetSession` (settlement `resetResult`) — there is
no guard on `isProcessingQuery` anywhere on this path.  On success the
`session_reset` emission clears the chat and shows the success
notification (`handleSessionReset`) and the session status is refreshed;
on failure the rethrown error is caught and surfaced as an error
notification.  The call itself never throws. -/
def resetBrainSession (st : JunaState) (resetResult : Except JSError Unit) : JunaState :=
  let st1 := { st with
    notifications := st.notifications ++ [("Resetting session...", "warning")],
    invokes := st.invokes ++ ["reset_session"] }
  match resetSession resetResult with
  | .ok _ =>
    let st2 := { st1 with
      messages := [],
      notifications := st1.notifications ++ [("Session reset successfully", "success")] }
    { st2 with invokes := st2.invokes ++ ["get_session_status"] }
  | .error e =>
    { st1 with notifications :=
        st1.notifications ++ [("Failed to reset session: " ++ e.message, "error")] }

/-! ## Shared helpers for the theorems -/

/-- The payload of a resolved `Except`, `undefined` on an error. -/
def okVal : Except JSError RawValue → RawValue
  | .ok v => v
  | .error _ => vundefined

/-- Coalescing an already-coalesced value with the same default changes
nothing. -/
theorem nullish_nullish (a b : RawValue) : nullish (nullish a b) b = nullish a b := by
  by_cases h : a.isNullish = true <;> simp [nullish, h]

/-- Coalescing an already-coalesced value changes nothing when the first
default was not itself nullish, whatever the second default is. -/
theorem nullish_stable (a b c : RawValue) (hb : b.isNullish = false) :
    nullish (nullish a b) c = nullish a b := by
  by_cases h : a.isNullish = true <;> simp [nullish, h, hb]

/-- A concrete state with a query in flight. -/
def sampleBusyState : JunaState :=
  { isProcessingQuery := true, currentTaskId := some "task_1",
    messages := [], notifications := [], invokes := [] }

/-- A concrete state whose task has resolved (flag cleared, task id
retained, as `processBrainQuery`'s `finally` leaves it). -/
def resolvedState : JunaState :=
  { isProcessingQuery := false, currentTaskId := some "task_1",
    messages := [], notifications := [], invokes := [] }

/-- A progress event of scenario E: step `k` of 5 total. -/
def scenarioEvent (k : Int) : PUpdate :=
  { ptype := "TASK_EXECUTION", pmessage := "working", current_step := k,
    total_steps := some 5 }

/-- A progress event without `total_steps`. -/
def indetEvent : PUpdate :=
  { ptype := "TASK_EXECUTION", pmessage := "working", current_step := 2,
    total_steps := none }

/-! ## C2 — transport failures become well-formed error responses -/

/-- C2: for every accepted query and every transport-level rejection of
the invoke, `processQuery` resolves (no exception escapes) with the
synthesized response whose `success` is `false`, whose `response_type` is
`ERROR`, whose message embeds the transport error text after
`Communication failed: `, and whose `metadata.session_id` is
`"unknown"`. -/
theorem transport_failure_yields_error_response
    (s : String) (hs : s ≠ "") (hlen : s.length ≤ 10000) (errMsg : String) :
    processQuery (vStr s) (.error ⟨errMsg⟩) =
      (some (jsTrim s), .ok (transportErrorResponse errMsg)) ∧
    (transportErrorResponse errMsg).jsGet "success" = vBool false ∧
    (transportErrorResponse errMsg).jsGet "response_type" = vStr "ERROR" ∧
    (transportErrorResponse errMsg).jsGet "message" =
      vStr ("Communication failed: " ++ errMsg) ∧
    ((transportErrorResponse errMsg).jsGet "metadata").jsGet "session_id" =
      vStr "unknown" := by
  refine ⟨?_, rfl, rfl, rfl, rfl⟩
  have h1 : (vStr s).truthy = true := by simp [truthy, hs]
  have h2 : ¬ s.length > 10000 := Nat.not_lt.mpr hlen
  simp [processQuery, h1, h2, isStr, strVal]

/-- Scenario D instance of C2: the invoke rejects with
`network unreachable`. -/
theorem transport_failure_yields_error_response_witness :
    processQuery (vStr "weather today") (.error ⟨"network unreachable"⟩) =
      (some (jsTrim "weather today"), .ok (transportErrorResponse "network unreachable")) ∧
    (transportErrorResponse "network unreachable").jsGet "success" = vBool false ∧
    (transportErrorResponse "network unreachable").jsGet "response_type" = vStr "ERROR" ∧
    (transportErrorResponse "network unreachable").jsGet "message" =
      vStr ("Communication failed: " ++ "network unreachable") ∧
    ((transportErrorResponse "network unreachable").jsGet "metadata").jsGet "session_id" =
      vStr "unknown" :=
  transport_failure_yields_error_response "weather today" (by decide) (by decide)
    "network unreachable"

/-! ## C3 — query validation happens on the untrimmed string -/

/-- C3 fails as stated: a whitespace-only query is empty after trimming,
yet `processQuery` accepts it and issues the remote call, sending the
trimmed — empty — query string to the backend. -/
theorem whitespace_query_is_sent_not_rejected :
    (processQuery (vStr " ") (.ok (obj []))).1 = some (jsTrim " ") ∧
    jsTrim " " = "" :=
  ⟨by decide, by decide⟩

/-- C3 (amended): the guards of `processQuery` inspect the raw string:
an empty (falsy) query or one whose untrimmed length exceeds 10000
throws before any remote call; every other string is trimmed and sent —
even one that trims to empty, and a string of at most 10000 untrimmed
characters is sent regardless of its trimmed length. -/
theorem query_validation_on_untrimmed_string
    (s : String) (r : Except JSError RawValue) :
    (s = "" → processQuery (vStr s) r =
      (none, .error ⟨"Query must be a non-empty string"⟩)) ∧
    (s ≠ "" → s.length > 10000 → processQuery (vStr s) r =
      (none, .error ⟨"Query exceeds maximum length of 10000 characters"⟩)) ∧
    (s ≠ "" → s.length ≤ 10000 → (processQuery (vStr s) r).1 = some (jsTrim s)) := by
  refine ⟨?_, ?_, ?_⟩
  · intro h; subst h; rfl
  · intro hne hlen
    have h1 : (vStr s).truthy = true := by simp [truthy, hne]
    simp [processQuery, h1, isStr, strVal, hlen]
  · intro hne hlen
    have h1 : (vStr s).truthy = true := by simp [truthy, hne]
    have h2 : ¬ s.length > 10000 := Nat.not_lt.mpr hlen
    cases r with
    | ok v =>
      cases hv : validateQueryResponse v <;>
        simp [processQuery, h1, h2, isStr, strVal, hv]
    | error e => simp [processQuery, h1, h2, isStr, strVal]

/-- Concrete instances of the three branches of C3 (amended). -/
theorem query_validation_on_untrimmed_string_witness :
    processQuery (vStr "") (.ok vnull) =
      (none, .error ⟨"Query must be a non-empty string"⟩) ∧
    processQuery (vStr (String.mk (List.replicate 10001 'x'))) (.ok vnull) =
      (none, .error ⟨"Query exceeds maximum length of 10000 characters"⟩) ∧
    (processQuery (vStr "hi") (.ok vnull)).1 = some (jsTrim "hi") :=
  ⟨(query_validation_on_untrimmed_string "" (.ok vnull)).1 rfl,
   (query_validation_on_untrimmed_string (String.mk (List.replicate 10001 'x'))
      (.ok vnull)).2.1
      (by
        intro h
        have h2 := congrArg String.length h
        rw [String.length, List.length_replicate] at h2
        simp at h2)
      (by
        have h3 : (String.mk (List.replicate 10001 'x')).length = 10001 := by
          rw [String.length]
          exact List.length_replicate 10001 'x'
        omega),
   (query_validation_on_untrimmed_string "hi" (.ok vnull)).2.2 (by decide) (by decide)⟩

/-! ## C1 — single-flight behaviour of a second submit -/

/-- C1 fails as stated: a second `processBrainQuery` while one is in
flight resolves normally — no OrchestratorBusy (or any other) failure is
raised; the only observable effect is the busy warning notification, and
no invoke is issued. -/
theorem second_submit_resolves_without_busy_failure :
    processBrainQuery sampleBusyState 7 "hello" (.ok (obj [])) =
      ({ sampleBusyState with notifications :=
          [("Please wait for current query to complete", "warning")] },
        .ok ()) ∧
    (processBrainQuery sampleBusyState 7 "hello" (.ok (obj []))).1.invokes = [] :=
  ⟨rfl, rfl⟩

/-- C1 (amended): while a query is in flight, a second
`processBrainQuery` call returns early and normally, its only effect the
busy warning notification: it starts no second invoke and leaves the
pending task id, the single-flight flag and the rendered messages
untouched. -/
theorem second_submit_early_returns_with_warning
    (st : JunaState) (h : st.isProcessingQuery = true)
    (now : Nat) (query : String) (r : Except JSError RawValue) :
    processBrainQuery st now query r =
      ({ st with notifications :=
          st.notifications ++ [("Please wait for current query to complete", "warning")] },
        .ok ()) := by
  simp [processBrainQuery, h]

/-- Concrete instance of C1 (amended) at the sample busy state. -/
theorem second_submit_early_returns_with_warning_witness :
    sampleBusyState.isProcessingQuery = true ∧
    processBrainQuery sampleBusyState 3 "hi" (.ok vnull) =
      ({ sampleBusyState with notifications := sampleBusyState.notifications ++
          [("Please wait for current query to complete", "warning")] },
        .ok ()) :=
  ⟨rfl, second_submit_early_returns_with_warning sampleBusyState rfl 3 "hi" (.ok vnull)⟩

/-! ## C9 — session reset while a task is pending -/

/-- C9 fails as stated: with a query in flight, `resetBrainSession`
neither throws a SessionBusy error nor queues the request — it invokes
the backend reset (and then the status refresh) immediately. -/
theorem reset_while_pending_invokes_backend :
    (resetBrainSession sampleBusyState (.ok ())).invokes =
      ["reset_session", "get_session_status"] ∧
    sampleBusyState.isProcessingQuery = true :=
  ⟨rfl, rfl⟩

/-- C9 (amended): `resetBrainSession` is unguarded: in every state —
pending task or not — it issues the backend `reset_session` invoke,
returns normally (no SessionBusy error exists in the code; a rejected
reset only becomes an error notification), and preserves the
single-flight flag and the task id. -/
theorem resetBrainSession_unguarded (st : JunaState) (r : Except JSError Unit) :
    "reset_session" ∈ (resetBrainSession st r).invokes ∧
    (resetBrainSession st r).isProcessingQuery = st.isProcessingQuery ∧
    (resetBrainSession st r).currentTaskId = st.currentTaskId := by
  cases r <;> simp [resetBrainSession, resetSession]

/-! ## C4 — totality of the validators -/

/-- C4 fails as stated: on `null` input every validator throws instead
of returning a value — `validateQueryResponse` its explicit structure
error, the other three the TypeError of reading a property of null. -/
theorem validators_throw_on_null :
    validateQueryResponse vnull = .error ⟨"Invalid response structure"⟩ ∧
    validateProgressUpdate 0 vnull =
      .error ⟨"Cannot read properties of null or undefined"⟩ ∧
    validateSessionStatus 0 vnull =
      .error ⟨"Cannot read properties of null or undefined"⟩ ∧
    validateErrorResponse 0 vnull =
      .error ⟨"Cannot read properties of null or undefined"⟩ :=
  ⟨rfl, rfl, rfl, rfl⟩

/-- C4 (amended): on every object input — however malformed its fields —
each validator returns normally with a value carrying every documented
field of its message shape; it is only null, undefined and (for
`validateQueryResponse`) other non-object inputs that throw. -/
theorem validators_total_on_objects (fs : RawFields) (now : Int) :
    (∃ a b c d e f g, validateQueryResponse (vObj fs) =
      .ok (obj [("success", a), ("response_type", b), ("message", c),
        ("metadata", obj [("route_taken", d), ("execution_time_ms", e),
          ("steps_completed", f), ("session_id", g)])])) ∧
    (∃ a b c d e, validateProgressUpdate now (vObj fs) =
      .ok (obj [("type", a), ("message", b), ("current_step", c),
        ("total_steps", d), ("timestamp", e)])) ∧
    (∃ a b c d e f, validateSessionStatus now (vObj fs) =
      .ok (obj [("session_id", a), ("created_at", b), ("message_count", c),
        ("current_task", d), ("memory_size", e), ("is_active", f)])) ∧
    (∃ a b c d e, validateErrorResponse now (vObj fs) =
      .ok (obj [("error_code", a), ("message", b), ("details", c),
        ("recoverable", d), ("timestamp", e)])) :=
  ⟨⟨_, _, _, _, _, _, _, rfl⟩, ⟨_, _, _, _, _, rfl⟩,
   ⟨_, _, _, _, _, _, rfl⟩, ⟨_, _, _, _, _, rfl⟩⟩

/-! ## C5 — the documented fallback values -/

/-- C5 fails as stated: a missing `current_step` — a numeric field — is
defaulted by `validateProgressUpdate` to `1`, not `0`. -/
theorem missing_current_step_defaults_to_one :
    (okVal (validateProgressUpdate 0 (obj []))).jsGet "current_step" = vNum 1 ∧
    vNum 1 ≠ vNum 0 :=
  ⟨rfl, by decide⟩

/-- C5 (amended): the fallbacks as implemented: an unknown or missing
`response_type` becomes `ERROR`; the missing numeric fields of a
QueryResponse's metadata and a SessionStatus's counters become `0`, but
ProgressUpdate's missing `current_step` becomes `1`, a missing
`total_steps` (and `current_task`, `details`) becomes null, and missing
timestamps become the current time; missing string fields get their
per-shape placeholders (`"unknown"`, `"No message provided"`,
`"Processing..."`, `"An unknown error occurred"`, `"UNKNOWN_ERROR"`). -/
theorem validator_fallbacks (now : Int) :
    validateQueryResponse (obj []) = .ok (obj [
      ("success", vBool false), ("response_type", vStr "ERROR"),
      ("message", vStr "No message provided"),
      ("metadata", obj [("route_taken", vStr "unknown"),
        ("execution_time_ms", vNum 0), ("steps_completed", vNum 0),
        ("session_id", vStr "unknown")])]) ∧
    (okVal (validateQueryResponse
      (obj [("response_type", vStr "WEIRD")]))).jsGet "response_type" =
      vStr "ERROR" ∧
    validateProgressUpdate now (obj []) = .ok (obj [
      ("type", vStr "TASK_EXECUTION"), ("message", vStr "Processing..."),
      ("current_step", vNum 1), ("total_steps", vnull),
      ("timestamp", vNum now)]) ∧
    validateSessionStatus now (obj []) = .ok (obj [
      ("session_id", vStr "unknown"), ("created_at", vNum now),
      ("message_count", vNum 0), ("current_task", vnull),
      ("memory_size", vNum 0), ("is_active", vBool false)]) ∧
    validateErrorResponse now (obj []) = .ok (obj [
      ("error_code", vStr "UNKNOWN_ERROR"),
      ("message", vStr "An unknown error occurred"), ("details", vnull),
      ("recoverable", vBool false), ("timestamp", vNum now)]) :=
  ⟨rfl, by decide, rfl, rfl, rfl⟩

/-! ## C7 — progress events after task resolution -/

/-- C7 fails as stated: after the task has resolved
(`isProcessingQuery = false`, task id retained), an arriving progress
event is not discarded — it is rendered, appending a progress message
for the retained task id, an observable effect. -/
theorem late_progress_event_is_rendered :
    (handleProgressUpdate resolvedState (scenarioEvent 4)).messages =
      [RenderedMsg.progress "task_1" (updateContent (scenarioEvent 4)) false] ∧
    resolvedState.isProcessingQuery = false ∧
    resolvedState.messages = [] :=
  ⟨rfl, rfl, rfl⟩

/-- C7 (amended): `handleProgressUpdate` never consults the task status:
its effect on the rendered messages and on the notifications is
identical whether the query is still in flight or already resolved, so a
progress event arriving after resolution is rendered exactly as an
in-flight one — applied, not discarded. -/
theorem handleProgressUpdate_ignores_task_status
    (flag1 flag2 : Bool) (tid : Option String) (msgs : List RenderedMsg)
    (notifs : List (String × String)) (invs : List String) (u : PUpdate) :
    (handleProgressUpdate ⟨flag1, tid, msgs, notifs, invs⟩ u).messages =
      (handleProgressUpdate ⟨flag2, tid, msgs, notifs, invs⟩ u).messages ∧
    (handleProgressUpdate ⟨flag1, tid, msgs, notifs, invs⟩ u).notifications =
      (handleProgressUpdate ⟨flag2, tid, msgs, notifs, invs⟩ u).notifications :=
  ⟨rfl, rfl⟩

/-! ## C8 — progress percentage and arrival-order application -/

/-- C8: with `total_steps` present (a nonzero number, the truthy case),
the rendered progress intent carries
`Math.round(current_step / total_steps * 100)` and the `a/b` step text;
without it the indeterminate form `Step n` is shown; and events are
applied in arrival order even when `current_step` values arrive out of
order — steps 1, 3, 2 of 5 successively render 20%, 60% and 40%, none
rejected. -/
theorem progress_percentage_and_arrival_order :
    (∀ (u : PUpdate) (n : Int), u.total_steps = some n → n ≠ 0 →
      (updateContent u).percentage =
        jsRound ((u.current_step : ℚ) * 100 / (n : ℚ)) ∧
      (updateContent u).stepText =
        toString u.current_step ++ "/" ++ toString n) ∧
    (∀ (u : PUpdate), u.total_steps = none →
      (updateContent u).percentage = 0 ∧
      (updateContent u).stepText = "Step " ++ toString u.current_step) ∧
    ((updateContent (scenarioEvent 1)).percentage = 20 ∧
     (updateContent (scenarioEvent 3)).percentage = 60 ∧
     (updateContent (scenarioEvent 2)).percentage = 40) ∧
    (renderProgressUpdate [] (scenarioEvent 1) (some "t1") =
      [RenderedMsg.progress "t1" (updateContent (scenarioEvent 1)) false] ∧
     renderProgressUpdate
        [RenderedMsg.progress "t1" (updateContent (scenarioEvent 1)) false]
        (scenarioEvent 3) (some "t1") =
      [RenderedMsg.progress "t1" (updateContent (scenarioEvent 3)) false] ∧
     renderProgressUpdate
        [RenderedMsg.progress "t1" (updateContent (scenarioEvent 3)) false]
        (scenarioEvent 2) (some "t1") =
      [RenderedMsg.progress "t1" (updateContent (scenarioEvent 2)) false]) := by
  refine ⟨?_, ?_,
    ⟨by norm_num [updateContent, scenarioEvent, jsRound],
     by norm_num [updateContent, scenarioEvent, jsRound],
     by norm_num [updateContent, scenarioEvent, jsRound]⟩,
    ⟨rfl, rfl, rfl⟩⟩
  · intro u n hts hn
    simp [updateContent, hts, hn]
  · intro u hts
    simp [updateContent, hts]

/-- Concrete instances of both branches of C8. -/
theorem progress_percentage_and_arrival_order_witness :
    ((updateContent (scenarioEvent 1)).percentage =
      jsRound (((scenarioEvent 1).current_step : ℚ) * 100 / ((5 : Int) : ℚ)) ∧
     (updateContent (scenarioEvent 1)).stepText =
      toString (scenarioEvent 1).current_step ++ "/" ++ toString (5 : Int)) ∧
    ((updateContent indetEvent).percentage = 0 ∧
     (updateContent indetEvent).stepText =
      "Step " ++ toString indetEvent.current_step) :=
  ⟨progress_percentage_and_arrival_order.1 (scenarioEvent 1) 5 rfl (by decide),
   progress_percentage_and_arrival_order.2.1 indetEvent rfl⟩

/-! ## C6 — idempotence of the validators -/

/-- Re-checking a coerced `response_type` always passes: the kept value
was valid, and the fallback `ERROR` is itself valid. -/
theorem respType_stable (t : RawValue) :
    validResponseType (if validResponseType t then t else vStr "ERROR") = true := by
  by_cases h : validResponseType t = true
  · simp [h]
  · simp [h]
    decide

/-- Re-checking a coerced progress `type` always passes: the kept value
was valid, and the fallback `TASK_EXECUTION` is itself valid. -/
theorem progType_stable (t : RawValue) :
    validProgressType (if validProgressType t then t else vStr "TASK_EXECUTION") = true := by
  by_cases h : validProgressType t = true
  · simp [h]
  · simp [h]
    decide

/-- Idempotence of `validateQueryResponse` on its domain. -/
theorem validateQueryResponse_idem (x y : RawValue)
    (h : validateQueryResponse x = .ok y) : validateQueryResponse y = .ok y := by
  unfold validateQueryResponse at h
  split at h
  · exact Except.noConfusion h
  · injection h with h
    subst h
    simp [validateQueryResponse, obj, fieldsOf, jsGet, jsGetOpt, lookupField,
      truthy, typeofObject, isNullish, nullish_nullish, respType_stable]

/-- Idempotence of `validateProgressUpdate` on its domain, for any later
clock value. -/
theorem validateProgressUpdate_idem (now now2 : Int) (x y : RawValue)
    (h : validateProgressUpdate now x = .ok y) :
    validateProgressUpdate now2 y = .ok y := by
  unfold validateProgressUpdate at h
  split at h
  · exact Except.noConfusion h
  · injection h with h
    subst h
    simp [validateProgressUpdate, obj, fieldsOf, jsGet, lookupField,
      isNullish, nullish_nullish, progType_stable, nullish_stable]

/-- Idempotence of `validateSessionStatus` on its domain, for any later
clock value. -/
theorem validateSessionStatus_idem (now now2 : Int) (x y : RawValue)
    (h : validateSessionStatus now x = .ok y) :
    validateSessionStatus now2 y = .ok y := by
  unfold validateSessionStatus at h
  split at h
  · exact Except.noConfusion h
  · injection h with h
    subst h
    simp [validateSessionStatus, obj, fieldsOf, jsGet, lookupField,
      isNullish, nullish_nullish, nullish_stable]

/-- Idempotence of `validateErrorResponse` on its domain, for any later
clock value. -/
theorem validateErrorResponse_idem (now now2 : Int) (x y : RawValue)
    (h : validateErrorResponse now x = .ok y) :
    validateErrorResponse now2 y = .ok y := by
  unfold validateErrorResponse at h
  split at h
  · exact Except.noConfusion h
  · injection h with h
    subst h
    simp [validateErrorResponse, obj, fieldsOf, jsGet, lookupField,
      isNullish, nullish_nullish, nullish_stable]

/-- C6: every validator is idempotent on its domain: whenever validation
returns a value, re-validating that value (at any later clock) returns
it unchanged. -/
theorem validators_idempotent :
    (∀ x y, validateQueryResponse x = .ok y → validateQueryResponse y = .ok y) ∧
    (∀ now now2 x y, validateProgressUpdate now x = .ok y →
      validateProgressUpdate now2 y = .ok y) ∧
    (∀ now now2 x y, validateSessionStatus now x = .ok y →
      validateSessionStatus now2 y = .ok y) ∧
    (∀ now now2 x y, validateErrorResponse now x = .ok y →
      validateErrorResponse now2 y = .ok y) :=
  ⟨validateQueryResponse_idem, validateProgressUpdate_idem,
   validateSessionStatus_idem, validateErrorResponse_idem⟩

/-- Concrete instances of C6: re-validating the default-filled values. -/
theorem validators_idempotent_witness :
    validateQueryResponse (okVal (validateQueryResponse (obj []))) =
      .ok (okVal (validateQueryResponse (obj []))) ∧
    validateProgressUpdate 6 (okVal (validateProgressUpdate 5 (obj []))) =
      .ok (okVal (validateProgressUpdate 5 (obj []))) ∧
    validateSessionStatus 6 (okVal (validateSessionStatus 5 (obj []))) =
      .ok (okVal (validateSessionStatus 5 (obj []))) ∧
    validateErrorResponse 6 (okVal (validateErrorResponse 5 (obj []))) =
      .ok (okVal (validateErrorResponse 5 (obj []))) :=
  ⟨validators_idempotent.1 (obj []) _ rfl,
   validators_idempotent.2.1 5 6 (obj []) _ rfl,
   validators_idempotent.2.2.1 5 6 (obj []) _ rfl,
   validators_idempotent.2.2.2 5 6 (obj []) _ rfl⟩

/-! ## C10 — emit isolation -/

/-- The invocation trace of the `forEach` loop is exactly the handler
list paired with the payload, whatever the handlers do. -/
theorem runHandlers_trace (hs : List Nat) (run : Nat → RawValue → Except JSError Unit)
    (payload : RawValue) :
    (runHandlers hs run payload).1 = hs.map (fun h => (h, payload)) := by
  induction hs with
  | nil => rfl
  | cons h rest ih => simp [runHandlers, ih]

/-- Finding the event key after `setHandlers` yields the new handler
list, provided the key was present. -/
theorem find?_setHandlers_self (m : List (String × List Nat)) (ev : String)
    (l : List Nat) (h : (m.find? (fun p => p.1 == ev)).isSome = true) :
    (setHandlers m ev l).find? (fun p => p.1 == ev) = some (ev, l) := by
  induction m with
  | nil => simp at h
  | cons p rest ih =>
    obtain ⟨k, v⟩ := p
    simp only [setHandlers]
    by_cases hk : (k == ev) = true
    · have hke : k = ev := by simpa using hk
      subst hke
      rw [if_pos hk]
      simp [List.find?_cons]
    · rw [if_neg hk]
      simp only [List.find?_cons] at h ⊢
      simp only [hk, if_false] at h ⊢
      exact ih h

/-- Replacing a freshly appended key's handler list with the same value
changes nothing, provided the key was absent before the append. -/
theorem setHandlers_append_fresh (m : List (String × List Nat)) (ev : String)
    (l : List Nat) (h : m.find? (fun p => p.1 == ev) = none) :
    setHandlers (m ++ [(ev, l)]) ev l = m ++ [(ev, l)] := by
  induction m with
  | nil => simp [setHandlers]
  | cons p rest ih =>
    obtain ⟨k, v⟩ := p
    simp only [List.cons_append, setHandlers]
    by_cases hk : (k == ev) = true
    · exfalso
      simp only [List.find?_cons] at h
      simp [hk] at h
    · rw [if_neg hk]
      simp only [List.find?_cons] at h
      simp only [hk, if_false] at h
      exact congrArg (List.cons (k, v)) (ih h)

/-- Re-setting a key's handler list to the same value is idempotent. -/
theorem setHandlers_setHandlers (m : List (String × List Nat)) (ev : String)
    (l : List Nat) :
    setHandlers (setHandlers m ev l) ev l = setHandlers m ev l := by
  induction m with
  | nil => rfl
  | cons p rest ih =>
    obtain ⟨k, v⟩ := p
    by_cases hk : (k == ev) = true <;> simp [setHandlers, hk, ih]

/-- Appending a fresh key makes it findable, provided it was absent. -/
theorem find?_append_fresh (m : List (String × List Nat)) (ev : String)
    (l : List Nat) (h : m.find? (fun p => p.1 == ev) = none) :
    (m ++ [(ev, l)]).find? (fun p => p.1 == ev) = some (ev, l) := by
  induction m with
  | nil => simp
  | cons p rest ih =>
    obtain ⟨k, v⟩ := p
    simp only [List.cons_append, List.find?_cons] at h ⊢
    by_cases hk : (k == ev) = true
    · simp [hk] at h
    · simp only [hk, if_false] at h ⊢
      exact ih h

/-- Every entry of `setHandlers m ev l` is an entry of `m` or carries the
new list `l`. -/
theorem mem_setHandlers (m : List (String × List Nat)) (ev : String)
    (l : List Nat) (q : String × List Nat) (hq : q ∈ setHandlers m ev l) :
    q ∈ m ∨ q.2 = l := by
  induction m with
  | nil => simp [setHandlers] at hq
  | cons p rest ih =>
    obtain ⟨k, v⟩ := p
    by_cases hk : (k == ev) = true
    · simp only [setHandlers, if_pos hk] at hq
      rcases List.mem_cons.mp hq with h1 | h1
      · right; rw [h1]
      · left; exact List.mem_cons_of_mem _ h1
    · simp only [setHandlers, if_neg hk] at hq
      rcases List.mem_cons.mp hq with h1 | h1
      · left; exact h1 ▸ List.mem_cons_self _ _
      · rcases ih h1 with h2 | h2
        · left; exact List.mem_cons_of_mem _ h2
        · right; exact h2

/-- A well-formed registry: every per-event handler list is free of
duplicates (the `Set` invariant). -/
def regWellFormed (r : Registry) : Prop :=
  ∀ p ∈ r.map, p.2.Nodup

/-- C10: emit isolation.  (1) The invocation trace of `emit` is exactly
the registered handler list paired with the payload — independent of
what the handlers do, so a throwing handler prevents no later handler,
and `emit` (a total function with no error channel) never throws.
(2) Registering the same handler twice is the same as registering it
once, so it is invoked once per emit.  (3) Registration preserves the
no-duplicates invariant of every handler list. -/
theorem emit_isolation :
    (∀ (r : Registry) (ev : String) (run : Nat → RawValue → Except JSError Unit)
      (payload : RawValue),
      (emit r ev run payload).1 =
        (match handlersOf r ev with
         | some hs => hs.map (fun h => (h, payload))
         | none => [])) ∧
    (∀ (r : Registry) (ev : String) (h : Nat),
      onEvent (onEvent r ev h) ev h = onEvent r ev h) ∧
    (∀ (r : Registry) (ev : String) (h : Nat),
      regWellFormed r → regWellFormed (onEvent r ev h)) := by
  refine ⟨?_, ?_, ?_⟩
  · intro r ev run payload
    unfold emit
    cases hfind : handlersOf r ev <;> simp [runHandlers_trace]
  · intro r ev h
    unfold onEvent
    cases hfind : handlersOf r ev with
    | none =>
      have hf : r.map.find? (fun p => p.1 == ev) = none := by
        unfold handlersOf at hfind
        cases hx : r.map.find? (fun p => p.1 == ev) <;> simp [hx] at hfind ⊢
      have h2 : handlersOf ⟨r.map ++ [(ev, [h])]⟩ ev = some [h] := by
        unfold handlersOf
        rw [find?_append_fresh r.map ev [h] hf]
        rfl
      simp only [h2]
      have hmem : h ∈ [h] := List.mem_singleton.mpr rfl
      rw [if_pos hmem]
      congr 1
      exact setHandlers_append_fresh r.map ev [h] hf
    | some hs =>
      have hsome : (r.map.find? (fun p => p.1 == ev)).isSome = true := by
        unfold handlersOf at hfind
        cases hx : r.map.find? (fun p => p.1 == ev) <;> simp [hx] at hfind ⊢
      have h2 : handlersOf ⟨setHandlers r.map ev (if h ∈ hs then hs else hs ++ [h])⟩ ev =
          some (if h ∈ hs then hs else hs ++ [h]) := by
        unfold handlersOf
        rw [find?_setHandlers_self r.map ev _ hsome]
        rfl
      simp only [h2]
      have hmem : h ∈ (if h ∈ hs then hs else hs ++ [h]) := by
        by_cases hin : h ∈ hs <;> simp [hin]
      rw [if_pos hmem]
      congr 1
      exact setHandlers_setHandlers r.map ev _
  · intro r ev h hwf
    unfold onEvent
    cases hfind : handlersOf r ev with
    | none =>
      intro p hp
      rcases List.mem_append.mp hp with h1 | h1
      · exact hwf p h1
      · rcases List.mem_singleton.mp h1 with rfl
        exact List.nodup_singleton h
    | some hs =>
      intro p hp
      rcases mem_setHandlers r.map ev _ p hp with h1 | h1
      · exact hwf p h1
      · rw [h1]
        have hq : ∃ q, r.map.find? (fun x => x.1 == ev) = some q ∧ q.2 = hs := by
          unfold handlersOf at hfind
          cases hx : r.map.find? (fun x => x.1 == ev) with
          | none => simp [hx] at hfind
          | some q => simp [hx] at hfind; exact ⟨q, rfl, hfind⟩
        obtain ⟨q, hfq, hq2⟩ := hq
        have hnd : hs.Nodup := hq2 ▸ hwf q (List.mem_of_find?_eq_some hfq)
        by_cases hin : h ∈ hs
        · simpa [hin] using hnd
        · simp only [if_neg hin]
          simp [List.nodup_append, hnd, hin]

/-- Concrete instance of the invariant-preservation part of C10 at the
empty registry. -/
theorem emit_isolation_witness :
    regWellFormed (onEvent ⟨[]⟩ "progress_update" 0) :=
  emit_isolation.2.2 ⟨[]⟩ "progress_update" 0
    (fun p hp => absurd hp (List.not_mem_nil p))

end Juna
